/-
Verification of the signal-detection core of the `technical_analysis`
repository: the price-series validator (`src/data_fetcher.py`,
`validate_stock_data`), the signal classifiers and the per-symbol analysis
orchestrator (`src/technical_indicators.py`, `calculate_rsi_signals`,
`calculate_macd_signals`, `analyze_stock_with_talib`,
`analyze_multiple_stocks`).

Modelling conventions:
  * Python floats are modelled as rationals (`ℚ`); a NaN (or Python `None`)
    is modelled as `none` of `Option ℚ`.  The pandas/numpy comparison
    semantics `NaN <= 0 = False` is mirrored by matching on the option.
  * A pandas DataFrame is modelled by the fields the code reads: the set of
    column names, the `Close` column, and the row count `len(data)`.
  * The code returns `None` on every rejection and logs a branch-specific
    message; `analyzeE` is the embedding that also records which branch
    rejected (the observable log message), and `analyze_stock_with_talib`
    is its `Option`-valued projection, matching the Python return value.
  * The TA-Lib indicator functions `talib.RSI` and `talib.MACD` are an
    external C library, not source of this repository; they are modelled
    from spec section 4.2 (`computeRSI`, `computeMACD`, and their
    NaN-masking wrappers).
-/
import Mathlib

namespace TechAnalysis

/-- Configuration (`src/config.py`, class `Config`): the fields the analysis
core reads, with the source's default values. -/
structure Config where
  RSI_PERIOD : Nat := 14
  RSI_OVERSOLD : ℚ := 20
  RSI_OVERBOUGHT : ℚ := 80
  MACD_FAST : Nat := 12
  MACD_SLOW : Nat := 26
  MACD_SIGNAL : Nat := 9
  MIN_DATA_POINTS : Nat := 50
deriving DecidableEq

/-- The global configuration instance `config = Config()` with all defaults. -/
def defaultConfig : Config := {}

/-- A trading signal (the strings appended to the `signals` lists; the RSI
strings embed the triggering value via an f-string, the MACD strings are
constant). -/
inductive Signal where
  | RSIOversold (value : ℚ)
  | RSIOverbought (value : ℚ)
  | MACDBullishCrossover
  | MACDBearishCrossover
deriving DecidableEq

/-- `calculate_rsi_signals` (technical_indicators.py lines 22-42).
`rsi_value` is `None` or NaN ↦ `none`; otherwise `some v`. -/
def calculate_rsi_signals (cfg : Config) (rsi_value : Option ℚ) : List Signal :=
  match rsi_value with
  | none => []
  | some v =>
    if v < cfg.RSI_OVERSOLD then [Signal.RSIOversold v]
    else if v > cfg.RSI_OVERBOUGHT then [Signal.RSIOverbought v]
    else []

/-- `calculate_macd_signals` (technical_indicators.py lines 45-77).
`macd[-1]` is `macd.getLast?`, `histogram[-2]` is
`histogram[histogram.length - 2]?`; a NaN entry is `some none`. -/
def calculate_macd_signals (macd signal histogram : List (Option ℚ)) :
    List Signal :=
  if macd.length < 2 ∨ signal.length < 2 ∨ histogram.length < 2 then []
  else
    match macd.getLast?, signal.getLast?, histogram[histogram.length - 2]? with
    | some (some latest_macd), some (some latest_signal), some (some prev_histogram) =>
      if latest_macd > latest_signal ∧ prev_histogram ≤ 0 then
        [Signal.MACDBullishCrossover]
      else if latest_macd < latest_signal ∧ prev_histogram ≥ 0 then
        [Signal.MACDBearishCrossover]
      else []
    | _, _, _ => []

/-- Modelled from the spec: the EMA recurrence values after the seed
(spec 4.2: smoothing factor `a = 2/(period+1)`,
`EMA_t = a*x_t + (1-a)*EMA_(t-1)`). `talib` itself is an external C library,
not source of this repository. -/
def emaSteps (a : ℚ) (prev : ℚ) : List ℚ → List ℚ
  | [] => []
  | x :: rest =>
    let v := a * x + (1 - a) * prev
    v :: emaSteps a v rest

/-- Modelled from the spec: the exponential moving average array (spec 4.2):
seeded by a simple moving average of the first `period` values, undefined
before the seed window completes, same length as the input. -/
def ema (period : Nat) (xs : List ℚ) : List (Option ℚ) :=
  if xs.length < period ∨ period = 0 then List.replicate xs.length none
  else
    let seed := (xs.take period).sum / (period : ℚ)
    List.replicate (period - 1) none ++
      (seed :: emaSteps (2 / ((period : ℚ) + 1)) seed (xs.drop period)).map some

/-- Elementwise subtraction of possibly-undefined values; an undefined
operand makes the result undefined (spec 4.2 numeric policy: NaN
propagates). -/
def optSub : Option ℚ → Option ℚ → Option ℚ
  | some a, some b => some (a - b)
  | _, _ => none

/-- Modelled from the spec: the Wilder recursion for RSI (spec 4.2):
rolling averages `avg' = (avg*(period-1) + current)/period` of gains and
losses, one pair per session after the seed window. -/
def wilderSteps (period : Nat) (ag al : ℚ) : List ℚ → List (ℚ × ℚ)
  | [] => []
  | d :: rest =>
    let ag2 := (ag * ((period : ℚ) - 1) + max d 0) / (period : ℚ)
    let al2 := (al * ((period : ℚ) - 1) + max (-d) 0) / (period : ℚ)
    (ag2, al2) :: wilderSteps period ag2 al2 rest

/-- RSI value from an average gain and an average loss (spec 4.2):
`100 - 100/(1+RS)` with `RS = avgGain/avgLoss`, and 100 when the average
loss is exactly 0. -/
def rsiOf (ag al : ℚ) : ℚ :=
  if al = 0 then 100 else 100 - 100 / (1 + ag / al)

/-- Modelled from the spec: `talib.RSI` (spec 4.2). The first `period`
entries are undefined; from entry `period` on, the Wilder rolling averages
of the session-to-session gains and losses give the RSI. Output length
equals input length. -/
def computeRSI (period : Nat) (closes : List ℚ) : List (Option ℚ) :=
  if closes.length ≤ period ∨ period = 0 then List.replicate closes.length none
  else
    let diffs := List.zipWith (fun a b => a - b) closes.tail closes
    let ag0 := ((diffs.take period).map (fun d => max d 0)).sum / (period : ℚ)
    let al0 := ((diffs.take period).map (fun d => max (-d) 0)).sum / (period : ℚ)
    List.replicate period none ++
      ((ag0, al0) :: wilderSteps period ag0 al0 (diffs.drop period)).map
        (fun p => some (rsiOf p.1 p.2))

/-- Modelled from the spec: `talib.MACD` (spec 4.2):
`macd = EMA(closes, fast) - EMA(closes, slow)`,
`signalLine = EMA(macd, signal)` (the signal EMA runs over the defined part
of `macd`, which starts at index `slow - 1`), `histogram = macd -
signalLine`; all three arrays have the length of `closes`. -/
def computeMACD (fast slow signal : Nat) (closes : List ℚ) :
    List (Option ℚ) × List (Option ℚ) × List (Option ℚ) :=
  let emaFast := ema fast closes
  let emaSlow := ema slow closes
  let macd := List.zipWith optSub emaFast emaSlow
  let macdVals := (macd.drop (slow - 1)).map (fun o => o.getD 0)
  let signalLine := List.replicate (slow - 1) none ++ ema signal macdVals
  let histogram := List.zipWith optSub macd signalLine
  (macd, signalLine, histogram)

/-- Cumulative all-defined flags: entry `i` is true when inputs `0..i` are
all defined. Used to propagate an input NaN through every dependent output
entry (spec 4.2 numeric policy), since each indicator entry depends on the
whole input prefix. -/
def definedMask (inp : List (Option ℚ)) : List Bool :=
  ((inp.scanl (fun acc o => acc && o.isSome) true).drop 1)

/-- Mask an output array: entry `i` is kept when flag `i` is true,
undefined otherwise. -/
def applyMask (flags : List Bool) (out : List (Option ℚ)) : List (Option ℚ) :=
  List.zipWith (fun f v => if f then v else none) flags out

/-- The numeric values of a close column; the value chosen for an undefined
entry is irrelevant because the mask discards every output entry that
depends on it (the indicators are causal). -/
def valsOf (closes : List (Option ℚ)) : List ℚ :=
  closes.map (fun o => o.getD 0)

/-- `talib.RSI` on a close column that may contain NaN entries. -/
def computeRSIna (period : Nat) (closes : List (Option ℚ)) : List (Option ℚ) :=
  applyMask (definedMask closes) (computeRSI period (valsOf closes))

/-- `talib.MACD` on a close column that may contain NaN entries. -/
def computeMACDna (fast slow signal : Nat) (closes : List (Option ℚ)) :
    List (Option ℚ) × List (Option ℚ) × List (Option ℚ) :=
  let m := computeMACD fast slow signal (valsOf closes)
  (applyMask (definedMask closes) m.1,
   applyMask (definedMask closes) m.2.1,
   applyMask (definedMask closes) m.2.2)

/-- The five required OHLCV columns (data_fetcher.py line 223). -/
def requiredColumns : List String := ["Open", "High", "Low", "Close", "Volume"]

/-- A pandas DataFrame as the analysis core reads it: its column names, its
`Close` column (an undefined/NaN cell is `none`) and its row count
(`len(data)`). -/
structure DataFrame where
  columns : List String
  close : List (Option ℚ)
  nrows : Nat
deriving DecidableEq

/-- Which branch rejected a symbol: each constructor stands for one of the
distinct log messages the code emits before returning `None`
(`validate_stock_data` data_fetcher.py lines 218-243, and
`analyze_stock_with_talib` technical_indicators.py lines 98-124 and the
broad `except` at line 160). -/
inductive RejectReason where
  | noData
  | missingColumns
  | insufficientData
  | tooManyNaN
  | invalidPriceData
  | insufficientDataPoints
  | invalidLatestPrice
  | exceptionCaught
deriving DecidableEq

/-- `validate_stock_data` (data_fetcher.py lines 207-250) with the rejecting
branch made explicit: `none` means the data is valid.  The checks run in
source order: empty data, missing columns, length below
`config.MIN_DATA_POINTS`, NaN fraction of the close column above 10%, any
(defined) close value ≤ 0.  The final suspicious-price-change check (line
245-248) only logs a warning and never rejects, so it does not appear in
the returned value. -/
def validateE (cfg : Config) : Option DataFrame → Option RejectReason
  | none => some .noData
  | some df =>
    if df.nrows = 0 then some .noData
    else if ¬ requiredColumns.all (fun c => df.columns.contains c) then
      some .missingColumns
    else if df.nrows < cfg.MIN_DATA_POINTS then some .insufficientData
    else if ((df.close.countP (fun o => o.isNone) : ℚ) / (df.nrows : ℚ) > 1 / 10) then
      some .tooManyNaN
    else if df.close.any (fun o => match o with
        | some v => decide (v ≤ 0)
        | none => false) then
      some .invalidPriceData
    else none

/-- `validate_stock_data`'s Boolean return value. -/
def validate_stock_data (cfg : Config) (data : Option DataFrame) : Bool :=
  (validateE cfg data).isNone

/-- The analysis record `analyze_stock_with_talib` assembles
(technical_indicators.py lines 134-155). -/
structure AnalysisResult where
  symbol : String
  company_name : String
  current_price : ℚ
  rsi : Option ℚ
  macd : Option ℚ
  macd_signal : Option ℚ
  macd_histogram : Option ℚ
  signals : List Signal
  ind_rsi : List (Option ℚ)
  ind_macd : List (Option ℚ)
  ind_macd_signal : List (Option ℚ)
  ind_macd_histogram : List (Option ℚ)
  data_points : Nat
  valid_rsi : Bool
  valid_macd : Bool
deriving DecidableEq, Inhabited

/-- `xs[-1] if len(xs) > 0 and not np.isnan(xs[-1]) else None`
(technical_indicators.py lines 115-118). -/
def lastDefined (xs : List (Option ℚ)) : Option ℚ :=
  match xs.getLast? with
  | some (some v) => some v
  | _ => none

/-- `symbol.replace('.NS', '') if symbol.endswith('.NS') else symbol`
(technical_indicators.py line 132).  Note Python's `str.replace` removes
every occurrence of `.NS`, not only the trailing one. -/
def extract_company_name (symbol : String) : String :=
  if symbol.endsWith ".NS" then symbol.replace ".NS" "" else symbol

/-- The company-name derivation as claim C10 words it: remove one trailing
`.NS` suffix when present, else leave the symbol unchanged.  Kept separate
from `extract_company_name` (the source's behaviour) to compare the two. -/
def companyNameSpec (symbol : String) : String :=
  if symbol.endsWith ".NS" then symbol.dropRight 3 else symbol

/-- `analyze_stock_with_talib` (technical_indicators.py lines 80-162) with
the rejecting branch made explicit.  Mirrors the source's order: validate,
re-check the length of the close array, compute RSI and MACD, extract the
latest defined values, validate the latest price (a NaN latest close is the
only way to reach this rejection, since validation already rejects any
non-positive close), build the signal lists and assemble the record.  The
`exceptionCaught` branch models the broad `except` (only reachable when the
close array is empty yet passes the earlier checks, i.e. never with the
default configuration).  The source's local bindings (`close`, `rsi`,
`macd`, `macdsignal`, `macdhist`, `latest_...`) are inlined. -/
def analyzeE (cfg : Config) (symbol : String) (data : Option DataFrame) :
    Except RejectReason AnalysisResult :=
  match validateE cfg data with
  | some r => .error r
  | none =>
    match data with
    | none => .error .noData
    | some df =>
      if df.close.length < cfg.MIN_DATA_POINTS then .error .insufficientDataPoints
      else
        match df.close.getLast? with
        | none => .error .exceptionCaught
        | some none => .error .invalidLatestPrice
        | some (some latest_price) =>
          if latest_price ≤ 0 then .error .invalidLatestPrice
          else
            .ok {
              symbol := symbol
              company_name := extract_company_name symbol
              current_price := latest_price
              rsi := lastDefined (computeRSIna cfg.RSI_PERIOD df.close)
              macd := lastDefined
                (computeMACDna cfg.MACD_FAST cfg.MACD_SLOW cfg.MACD_SIGNAL df.close).1
              macd_signal := lastDefined
                (computeMACDna cfg.MACD_FAST cfg.MACD_SLOW cfg.MACD_SIGNAL df.close).2.1
              macd_histogram := lastDefined
                (computeMACDna cfg.MACD_FAST cfg.MACD_SLOW cfg.MACD_SIGNAL df.close).2.2
              signals := calculate_rsi_signals cfg
                  (lastDefined (computeRSIna cfg.RSI_PERIOD df.close)) ++
                calculate_macd_signals
                  (computeMACDna cfg.MACD_FAST cfg.MACD_SLOW cfg.MACD_SIGNAL df.close).1
                  (computeMACDna cfg.MACD_FAST cfg.MACD_SLOW cfg.MACD_SIGNAL df.close).2.1
                  (computeMACDna cfg.MACD_FAST cfg.MACD_SLOW cfg.MACD_SIGNAL df.close).2.2
              ind_rsi := computeRSIna cfg.RSI_PERIOD df.close
              ind_macd :=
                (computeMACDna cfg.MACD_FAST cfg.MACD_SLOW cfg.MACD_SIGNAL df.close).1
              ind_macd_signal :=
                (computeMACDna cfg.MACD_FAST cfg.MACD_SLOW cfg.MACD_SIGNAL df.close).2.1
              ind_macd_histogram :=
                (computeMACDna cfg.MACD_FAST cfg.MACD_SLOW cfg.MACD_SIGNAL df.close).2.2
              data_points := df.close.length
              valid_rsi := (lastDefined (computeRSIna cfg.RSI_PERIOD df.close)).isSome
              valid_macd := (lastDefined
                  (computeMACDna cfg.MACD_FAST cfg.MACD_SLOW cfg.MACD_SIGNAL df.close).1).isSome &&
                (lastDefined
                  (computeMACDna cfg.MACD_FAST cfg.MACD_SLOW cfg.MACD_SIGNAL df.close).2.1).isSome
            }

/-- `analyze_stock_with_talib`'s returned value: the record on success,
`None` on any rejection. -/
def analyze_stock_with_talib (cfg : Config) (symbol : String)
    (data : Option DataFrame) : Option AnalysisResult :=
  (analyzeE cfg symbol data).toOption

/-- `analyze_multiple_stocks` (technical_indicators.py lines 165-210):
entries whose data is `None` are skipped when submitting tasks; every other
symbol is analyzed independently and collected with its own result.  The
thread pool only schedules the per-symbol calls; the collected mapping is
the functional content modelled here. -/
def analyze_multiple_stocks (cfg : Config)
    (stock_data_map : List (String × Option DataFrame)) :
    List (String × Option AnalysisResult) :=
  stock_data_map.filterMap (fun sd =>
    match sd.2 with
    | none => none
    | some df => some (sd.1, analyze_stock_with_talib cfg sd.1 (some df)))

/-- The signal list of an optional analysis record (empty for `None`). -/
def signalsOf (o : Option AnalysisResult) : List Signal :=
  (o.map AnalysisResult.signals).getD []

/-- Is a signal the RSI-oversold one? -/
def isOversoldSig : Signal → Bool
  | .RSIOversold _ => true
  | _ => false

/-- Is a signal the RSI-overbought one? -/
def isOverboughtSig : Signal → Bool
  | .RSIOverbought _ => true
  | _ => false

/-- Is a signal the MACD bullish crossover? -/
def isBullishSig : Signal → Bool
  | .MACDBullishCrossover => true
  | _ => false

/-- Is a signal the MACD bearish crossover? -/
def isBearishSig : Signal → Bool
  | .MACDBearishCrossover => true
  | _ => false

/-- A 50-session series with every close 10: passes validation, RSI is 100
everywhere past the warm-up (no losses), MACD and signal line are 0. -/
def dfFlat : DataFrame :=
  { columns := requiredColumns
    close := List.replicate 50 (some 10)
    nrows := 50 }

/-- A 50-session series whose latest close is 0 (all earlier closes 10). -/
def dfLatestZero : DataFrame :=
  { columns := requiredColumns
    close := List.replicate 49 (some 10) ++ [some 0]
    nrows := 50 }

/-- A 50-session series whose latest close is NaN (all earlier closes 10):
passes validation (1/50 = 2% NaN) but fails the latest-price check. -/
def dfLatestNaN : DataFrame :=
  { columns := requiredColumns
    close := List.replicate 49 (some 10) ++ [none]
    nrows := 50 }

/-- A 10-session series: all columns present, but below the 50-point
minimum. -/
def dfTenBars : DataFrame :=
  { columns := requiredColumns
    close := List.replicate 10 (some 5)
    nrows := 10 }

/-- A 50-session all-defined close series of constant price 10 (the values
of `dfFlat`), used to instantiate warm-up statements. -/
def closesFlat : List ℚ := List.replicate 50 10

/-- The record produced by analyzing `dfFlat` (used to state concrete
instances of theorems about successful analyses). -/
def recordFlat : AnalysisResult :=
  match analyzeE defaultConfig "KOTAKBANK.NS" (some dfFlat) with
  | .ok r => r
  | .error _ => default

/-- Claim C1: the MACD classifier fires a bullish crossover exactly when
`latestMACD > latestSignal` and `previousHistogram ≤ 0`, a bearish crossover
exactly when `latestMACD < latestSignal` and `previousHistogram ≥ 0`
(given at least 2 entries per array and the three inspected values defined),
and emits nothing when an array is shorter than 2 or one of the three values
is undefined. -/
theorem macd_classifier_rule :
    (∀ (macd signal histogram : List (Option ℚ)) (lm ls ph : ℚ),
      2 ≤ macd.length → 2 ≤ signal.length → 2 ≤ histogram.length →
      macd.getLast? = some (some lm) → signal.getLast? = some (some ls) →
      histogram[histogram.length - 2]? = some (some ph) →
      (Signal.MACDBullishCrossover ∈ calculate_macd_signals macd signal histogram
          ↔ lm > ls ∧ ph ≤ 0) ∧
      (Signal.MACDBearishCrossover ∈ calculate_macd_signals macd signal histogram
          ↔ lm < ls ∧ ph ≥ 0)) ∧
    (∀ macd signal histogram : List (Option ℚ),
      macd.length < 2 ∨ signal.length < 2 ∨ histogram.length < 2 →
      calculate_macd_signals macd signal histogram = []) ∧
    (∀ macd signal histogram : List (Option ℚ),
      macd.getLast?.join = none ∨ signal.getLast?.join = none ∨
        (histogram[histogram.length - 2]?).join = none →
      calculate_macd_signals macd signal histogram = []) := by
  refine ⟨?_, ?_, ?_⟩
  · intro macd signal histogram lm ls ph h2m h2s h2h hm hs hp
    have e : calculate_macd_signals macd signal histogram =
        if lm > ls ∧ ph ≤ 0 then [Signal.MACDBullishCrossover]
        else if lm < ls ∧ ph ≥ 0 then [Signal.MACDBearishCrossover]
        else [] := by
      unfold calculate_macd_signals
      rw [if_neg (by omega), hm, hs, hp]
    by_cases h1 : lm > ls ∧ ph ≤ 0
    · have h2 : ¬(lm < ls ∧ ph ≥ 0) := fun hc => absurd hc.1 (not_lt.mpr h1.1.le)
      rw [e, if_pos h1]
      exact ⟨by simp [h1], by simp [h2]⟩
    · by_cases h2 : lm < ls ∧ ph ≥ 0
      · rw [e, if_neg h1, if_pos h2]
        exact ⟨by simp [h1], by simp [h2]⟩
      · rw [e, if_neg h1, if_neg h2]
        exact ⟨by simp [h1], by simp [h2]⟩
  · intro macd signal histogram h
    unfold calculate_macd_signals
    rw [if_pos h]
  · intro macd signal histogram h
    unfold calculate_macd_signals
    split
    · rfl
    · rcases hm : macd.getLast? with _ | om <;>
        rcases hs : signal.getLast? with _ | os <;>
        rcases hp : histogram[histogram.length - 2]? with _ | oh <;>
        simp only [hm, hs, hp, Option.join] at h ⊢ <;>
        first
        | rfl
        | (rcases om with _ | vm <;> rcases os with _ | vs <;>
            rcases oh with _ | vh <;> simp_all)

/-- Claim C1 witness: concrete arrays `macd = [0, 2]`, `signal = [0, 1]`,
`histogram = [-1, 1]`: latest MACD 2 > latest signal 1 and previous
histogram -1 ≤ 0, so the bullish crossover fires and the bearish one does
not. -/
theorem macd_classifier_rule_instance :
    (Signal.MACDBullishCrossover ∈
      calculate_macd_signals [some 0, some 2] [some 0, some 1]
        [some (-1), some 1]) ∧
    (Signal.MACDBearishCrossover ∈
        calculate_macd_signals [some 0, some 2] [some 0, some 1]
          [some (-1), some 1] ↔ (2:ℚ) < 1 ∧ (-1:ℚ) ≥ 0) := by
  have h := macd_classifier_rule.1 [some 0, some 2] [some 0, some 1]
    [some (-1), some 1] 2 1 (-1) (by decide) (by decide) (by decide)
    (by decide) (by decide) (by decide)
  exact ⟨h.1.mpr (by norm_num), h.2⟩

/-- Claim C2: the RSI classifier emits nothing when the latest RSI is
undefined; otherwise (with non-overlapping thresholds, as the defaults
20 < 80 are) it emits exactly `RSIOversold` when the value is strictly below
the oversold threshold and exactly `RSIOverbought` when strictly above the
overbought threshold; a value equal to the oversold threshold yields no
signal at all unless it exceeds the overbought threshold — with the default
thresholds, none. -/
theorem rsi_classifier_rule (cfg : Config)
    (hth : cfg.RSI_OVERSOLD ≤ cfg.RSI_OVERBOUGHT) :
    calculate_rsi_signals cfg none = [] ∧
    ∀ v : ℚ,
      (calculate_rsi_signals cfg (some v) = [Signal.RSIOversold v]
          ↔ v < cfg.RSI_OVERSOLD) ∧
      (calculate_rsi_signals cfg (some v) = [Signal.RSIOverbought v]
          ↔ cfg.RSI_OVERBOUGHT < v) ∧
      (v = cfg.RSI_OVERSOLD → calculate_rsi_signals cfg (some v) =
        if cfg.RSI_OVERBOUGHT < v then [Signal.RSIOverbought v] else []) := by
  refine ⟨rfl, fun v => ⟨?_, ?_, ?_⟩⟩
  · simp only [calculate_rsi_signals]
    split_ifs with h1 h2 <;> simp_all
  · simp only [calculate_rsi_signals]
    split_ifs with h1 h2 <;> simp_all
    linarith
  · intro hv
    subst hv
    simp only [calculate_rsi_signals]
    rw [if_neg (lt_irrefl _)]

/-- Claim C2 witness, at the default thresholds (oversold 20, overbought
80): an RSI of exactly 20 produces no signal, an RSI of 19 produces the
oversold signal, an RSI of 81 produces the overbought signal. -/
theorem rsi_classifier_rule_instance :
    calculate_rsi_signals defaultConfig (some 20) = [] ∧
    calculate_rsi_signals defaultConfig (some 19) = [Signal.RSIOversold 19] ∧
    calculate_rsi_signals defaultConfig (some 81) = [Signal.RSIOverbought 81] := by
  have h := rsi_classifier_rule defaultConfig (by norm_num [defaultConfig])
  refine ⟨?_, ?_, ?_⟩
  · have := (h.2 20).2.2 rfl
    simpa [defaultConfig] using this
  · exact (h.2 19).1.mpr (by norm_num [defaultConfig])
  · exact (h.2 81).2.1.mpr (by norm_num [defaultConfig])

theorem emaSteps_length (a p : ℚ) (l : List ℚ) :
    (emaSteps a p l).length = l.length := by
  induction l generalizing p with
  | nil => rfl
  | cons x rest ih => simp [emaSteps, ih]

theorem ema_length (period : Nat) (xs : List ℚ) :
    (ema period xs).length = xs.length := by
  unfold ema
  split
  · simp
  · rename_i h
    push_neg at h
    simp [emaSteps_length]
    omega

/-- Before the seed window completes, an EMA entry is undefined. -/
theorem ema_getElem_lt (period : Nat) (xs : List ℚ) (i : Nat)
    (hp : period ≤ xs.length) (hi : i < period - 1) :
    (ema period xs)[i]? = some none := by
  unfold ema
  rw [if_neg (by omega)]
  simp [List.getElem?_append, hi]

/-- From index `period - 1` on, an EMA entry is defined. -/
theorem ema_getElem_ge (period : Nat) (xs : List ℚ) (i : Nat)
    (hp : period ≤ xs.length) (hp0 : 0 < period) (h1 : period - 1 ≤ i)
    (h2 : i < xs.length) :
    ∃ v, (ema period xs)[i]? = some (some v) := by
  unfold ema
  rw [if_neg (by omega)]
  simp only [List.getElem?_append, List.length_replicate, List.getElem?_map]
  rw [if_neg (by omega)]
  rcases hx : ((xs.take period).sum / (period : ℚ) ::
      emaSteps (2 / ((period : ℚ) + 1)) ((xs.take period).sum / (period : ℚ))
        (xs.drop period))[i - (period - 1)]? with _ | w
  · exfalso
    rw [List.getElem?_eq_none_iff] at hx
    simp [emaSteps_length] at hx
    omega
  · exact ⟨w, rfl⟩

theorem optSub_none_right (a : Option ℚ) : optSub a none = none := by
  cases a <;> rfl

/-- The first `period` RSI entries are undefined. -/
theorem computeRSI_getElem_lt (period : Nat) (xs : List ℚ) (i : Nat)
    (hlen : period < xs.length) (hi : i < period) :
    (computeRSI period xs)[i]? = some none := by
  unfold computeRSI
  rw [if_neg (by omega)]
  simp [List.getElem?_append, hi]

/-- RSI entry `period` is defined. -/
theorem computeRSI_getElem_at (period : Nat) (xs : List ℚ)
    (hlen : period < xs.length) (hp0 : 0 < period) :
    ∃ v, (computeRSI period xs)[period]? = some (some v) := by
  unfold computeRSI
  rw [if_neg (by omega)]
  simp only [List.getElem?_append, List.length_replicate, List.getElem?_map]
  rw [if_neg (by omega), Nat.sub_self, List.getElem?_cons_zero]
  exact ⟨_, rfl⟩

/-- The MACD line is `EMA(fast) - EMA(slow)` elementwise. -/
theorem computeMACD_fst (fast slow signal : Nat) (closes : List ℚ) :
    (computeMACD fast slow signal closes).1 =
      List.zipWith optSub (ema fast closes) (ema slow closes) := rfl

/-- The histogram is the elementwise difference between the MACD line and
the signal line. -/
theorem computeMACD_hist (closes : List ℚ) :
    (computeMACD 12 26 9 closes).2.2 =
      List.zipWith optSub (computeMACD 12 26 9 closes).1
        (List.replicate 25 none ++
          ema 9 (((computeMACD 12 26 9 closes).1).drop 25
            |>.map (fun o => o.getD 0))) := rfl

theorem macdLine_length (closes : List ℚ) :
    ((computeMACD 12 26 9 closes).1).length = closes.length := by
  rw [computeMACD_fst]
  simp [ema_length]

/-- MACD-line entries before index `slow - 1 = 25` are undefined. -/
theorem macdLine_getElem_lt (closes : List ℚ) (i : Nat)
    (hn : 26 ≤ closes.length) (hi : i < 25) :
    ((computeMACD 12 26 9 closes).1)[i]? = some none := by
  rw [computeMACD_fst, List.getElem?_zipWith]
  have h26 : (ema 26 closes)[i]? = some none :=
    ema_getElem_lt 26 closes i hn (by omega)
  rcases Nat.lt_or_ge i 11 with h | h
  · rw [ema_getElem_lt 12 closes i (by omega) (by omega), h26]
    rfl
  · obtain ⟨v, h12⟩ := ema_getElem_ge 12 closes i (by omega) (by omega)
      (by omega) (by omega)
    rw [h12, h26]
    rfl

/-- MACD-line entries from index 25 on are defined. -/
theorem macdLine_getElem_ge (closes : List ℚ) (i : Nat)
    (hn : 26 ≤ closes.length) (h1 : 25 ≤ i) (h2 : i < closes.length) :
    ∃ v, ((computeMACD 12 26 9 closes).1)[i]? = some (some v) := by
  obtain ⟨a, ha⟩ := ema_getElem_ge 12 closes i (by omega) (by omega)
    (by omega) (by omega)
  obtain ⟨b, hb⟩ := ema_getElem_ge 26 closes i hn (by omega) (by omega) h2
  rw [computeMACD_fst, List.getElem?_zipWith, ha, hb]
  exact ⟨a - b, rfl⟩

/-- Histogram entries before index `slow - 1 + signal - 1 = 33` are
undefined. -/
theorem macdHist_getElem_lt (closes : List ℚ) (i : Nat)
    (hn : 34 ≤ closes.length) (hi : i < 33) :
    ((computeMACD 12 26 9 closes).2.2)[i]? = some none := by
  have hsiglen : (((computeMACD 12 26 9 closes).1).drop 25
      |>.map (fun o => o.getD 0)).length = closes.length - 25 := by
    simp [macdLine_length]
  rw [computeMACD_hist, List.getElem?_zipWith]
  rcases Nat.lt_or_ge i 25 with h | h
  · rw [macdLine_getElem_lt closes i (by omega) h]
    rw [List.getElem?_append_left (by simpa using h), List.getElem?_replicate_of_lt h]
    rfl
  · obtain ⟨a, ha⟩ := macdLine_getElem_ge closes i (by omega) h (by omega)
    rw [ha, List.getElem?_append_right (by simpa using h)]
    have : (ema 9 (((computeMACD 12 26 9 closes).1).drop 25
        |>.map (fun o => o.getD 0)))[i - 25]? = some none := by
      apply ema_getElem_lt
      · rw [hsiglen]; omega
      · omega
    simp only [List.length_replicate]
    rw [this]
    rfl

/-- Histogram entry 33 is defined. -/
theorem macdHist_getElem_at (closes : List ℚ) (hn : 34 ≤ closes.length) :
    ∃ v, ((computeMACD 12 26 9 closes).2.2)[33]? = some (some v) := by
  have hsiglen : (((computeMACD 12 26 9 closes).1).drop 25
      |>.map (fun o => o.getD 0)).length = closes.length - 25 := by
    simp [macdLine_length]
  obtain ⟨a, ha⟩ := macdLine_getElem_ge closes 33 (by omega) (by omega) (by omega)
  obtain ⟨b, hb⟩ := ema_getElem_ge 9 (((computeMACD 12 26 9 closes).1).drop 25
      |>.map (fun o => o.getD 0)) 8 (by rw [hsiglen]; omega) (by omega)
    (by omega) (by rw [hsiglen]; omega)
  rw [computeMACD_hist, List.getElem?_zipWith, ha,
    List.getElem?_append_right (by simp), List.length_replicate,
    show (33:Nat) - 25 = 8 from rfl, hb]
  exact ⟨a - b, rfl⟩

/-- Claim C3 (spec-modelled: `talib.RSI` and `talib.MACD` are an external
library, embedded here from spec 4.2): for every all-defined close series
long enough to pass the minimum-length check (50 points), the first 14 RSI
entries are undefined and entry 14 is defined, and with MACD parameters
fast=12, slow=26, signal=9 the first 33 histogram entries are undefined
and entry 33 is defined. -/
theorem indicator_warmup_lengths (closes : List ℚ) (h : 50 ≤ closes.length) :
    (∀ i, i < 14 → (computeRSI 14 closes)[i]? = some none) ∧
    ((computeRSI 14 closes)[14]?).join.isSome = true ∧
    (∀ i, i < 33 → ((computeMACD 12 26 9 closes).2.2)[i]? = some none) ∧
    (((computeMACD 12 26 9 closes).2.2)[33]?).join.isSome = true := by
  refine ⟨fun i hi => computeRSI_getElem_lt 14 closes i (by omega) hi, ?_,
    fun i hi => macdHist_getElem_lt closes i (by omega) hi, ?_⟩
  · obtain ⟨v, hv⟩ := computeRSI_getElem_at 14 closes (by omega) (by omega)
    rw [hv]
    rfl
  · obtain ⟨v, hv⟩ := macdHist_getElem_at closes (by omega)
    rw [hv]
    rfl

/-- Claim C3 witness: the concrete 50-session constant series `closesFlat`
satisfies the warm-up property. -/
theorem indicator_warmup_lengths_instance :
    (∀ i, i < 14 → (computeRSI 14 closesFlat)[i]? = some none) ∧
    ((computeRSI 14 closesFlat)[14]?).join.isSome = true ∧
    (∀ i, i < 33 → ((computeMACD 12 26 9 closesFlat).2.2)[i]? = some none) ∧
    (((computeMACD 12 26 9 closesFlat).2.2)[33]?).join.isSome = true :=
  indicator_warmup_lengths closesFlat (by simp [closesFlat])

/-- The missing-columns condition, as a proposition. -/
theorem missing_columns_iff (df : DataFrame) :
    (¬ requiredColumns.all (fun c => df.columns.contains c)) ↔
      ∃ c ∈ requiredColumns, c ∉ df.columns := by
  simp [List.all_eq_true]

/-- The non-positive-price condition, as a proposition (a NaN close never
satisfies it, mirroring pandas' `NaN <= 0 = False`). -/
theorem bad_price_iff (df : DataFrame) :
    (df.close.any (fun o => match o with
      | some v => decide (v ≤ 0)
      | none => false) = true) ↔
      ∃ v : ℚ, some v ∈ df.close ∧ v ≤ 0 := by
  rw [List.any_eq_true]
  constructor
  · rintro ⟨o, ho, hdec⟩
    cases o with
    | none => simp at hdec
    | some v => exact ⟨v, ho, by simpa using hdec⟩
  · rintro ⟨v, hv, hle⟩
    exact ⟨some v, hv, by simpa using hle⟩

/-- Claim C4: the validator returns false (and, being a total function,
does not raise) exactly when the series is absent or empty, or misses one
of the five OHLCV columns, or is shorter than the configured minimum, or
the fraction of undefined close values exceeds 10%, or some defined close
value is ≤ 0.  The single-session-jump check only warns, so no such
condition appears in the characterization: a series passing the five
checks is accepted whatever its session-to-session changes. -/
theorem validator_rejects_iff (cfg : Config) (df : DataFrame) :
    validate_stock_data cfg none = false ∧
    (validate_stock_data cfg (some df) = false ↔
      df.nrows = 0 ∨
      (∃ c ∈ requiredColumns, c ∉ df.columns) ∨
      df.nrows < cfg.MIN_DATA_POINTS ∨
      ((df.close.countP (fun o => o.isNone) : ℚ) / (df.nrows : ℚ) > 1 / 10) ∨
      (∃ v : ℚ, some v ∈ df.close ∧ v ≤ 0)) := by
  refine ⟨rfl, ?_⟩
  rw [← missing_columns_iff df, ← bad_price_iff df]
  simp only [validate_stock_data, validateE]
  split_ifs with h1 h2 h3 h4 h5 <;> simp_all

/-- Claim C5 counterexample: `dfLatestZero` has latest close 0, yet the
rejection comes from the validator's zero-or-negative-price check
(log message "Invalid price data"), not from the later "Invalid latest
price" branch of the orchestrator: validation already rejects any series
with a non-positive close, so the claimed reason is never the one
reported for a latest close of 0. -/
theorem latest_zero_close_rejected_by_validator :
    dfLatestZero.close.getLast? = some (some 0) ∧
    analyzeE defaultConfig "RELIANCE.NS" (some dfLatestZero) =
      Except.error RejectReason.invalidPriceData ∧
    (RejectReason.invalidPriceData == RejectReason.invalidLatestPrice) = false := by
  refine ⟨by with_unfolding_all rfl, by with_unfolding_all rfl, by decide⟩

/-- Claim C5, amended: a series whose latest close is not strictly positive
is rejected, but by the validator (its any-close-≤-0 check), so the reason
is "invalid price data"; the "invalid latest price" rejection fires when a
series passes validation and the length re-check but its latest close is
undefined (NaN) — the only way to reach that branch. -/
theorem invalid_latest_price_amended :
    (∀ (cfg : Config) (sym : String) (df : DataFrame),
      validateE cfg (some df) = none →
      cfg.MIN_DATA_POINTS ≤ df.close.length →
      df.close.getLast? = some none →
      analyzeE cfg sym (some df) = Except.error RejectReason.invalidLatestPrice) ∧
    (∀ (cfg : Config) (sym : String) (df : DataFrame) (v : ℚ),
      df.close.getLast? = some (some v) → v ≤ 0 →
      (validateE cfg (some df)).isSome = true ∧
      analyze_stock_with_talib cfg sym (some df) = none) := by
  constructor
  · intro cfg sym df hval hlen hlast
    simp only [analyzeE, hval]
    rw [if_neg (Nat.not_lt.mpr hlen), hlast]
  · intro cfg sym df v hlast hv
    have hmem : some v ∈ df.close := List.mem_of_getLast?_eq_some hlast
    have hany : df.close.any (fun o => match o with
        | some v => decide (v ≤ 0)
        | none => false) = true := (bad_price_iff df).mpr ⟨v, hmem, hv⟩
    have hsome : (validateE cfg (some df)).isSome = true := by
      simp only [validateE]
      split_ifs <;> rfl
    obtain ⟨r, hr⟩ := Option.isSome_iff_exists.mp hsome
    refine ⟨hsome, ?_⟩
    unfold analyze_stock_with_talib analyzeE
    rw [hr]
    rfl

/-- Claim C5 witness: `dfLatestNaN` passes validation and hits the
invalid-latest-price branch; `dfLatestZero` (latest close 0) is caught by
the validator and analysis returns `None`. -/
theorem invalid_latest_price_amended_instance :
    analyzeE defaultConfig "TCS.NS" (some dfLatestNaN) =
      Except.error RejectReason.invalidLatestPrice ∧
    (validateE defaultConfig (some dfLatestZero)).isSome = true ∧
    analyze_stock_with_talib defaultConfig "TCS.NS" (some dfLatestZero) = none := by
  refine ⟨invalid_latest_price_amended.1 defaultConfig "TCS.NS" dfLatestNaN
    (by with_unfolding_all rfl) (by decide) (by with_unfolding_all rfl), ?_, ?_⟩
  · exact (invalid_latest_price_amended.2 defaultConfig "TCS.NS" dfLatestZero 0
      (by with_unfolding_all rfl) (by norm_num)).1
  · exact (invalid_latest_price_amended.2 defaultConfig "TCS.NS" dfLatestZero 0
      (by with_unfolding_all rfl) (by norm_num)).2

/-- Claim C6: a series with fewer bars than the configured minimum is
rejected — `analyze_stock_with_talib` returns `None` rather than a record
(the embedding is total, so nothing is raised) — and when the series is
non-empty with all five columns present the rejection is the validator's
insufficient-data one (log message "Insufficient data for ... points"). -/
theorem insufficient_data_rejection (cfg : Config) (sym : String)
    (df : DataFrame) (h : df.nrows < cfg.MIN_DATA_POINTS) :
    analyze_stock_with_talib cfg sym (some df) = none ∧
    (0 < df.nrows →
      requiredColumns.all (fun c => df.columns.contains c) = true →
      analyzeE cfg sym (some df) = Except.error RejectReason.insufficientData) := by
  have hval : validateE cfg (some df) = some RejectReason.noData ∨
      validateE cfg (some df) = some RejectReason.missingColumns ∨
      validateE cfg (some df) = some RejectReason.insufficientData := by
    simp only [validateE]
    by_cases h1 : df.nrows = 0
    · rw [if_pos h1]
      exact Or.inl rfl
    · rw [if_neg h1]
      by_cases h2 : ¬ requiredColumns.all (fun c => df.columns.contains c)
      · rw [if_pos h2]
        exact Or.inr (Or.inl rfl)
      · rw [if_neg h2, if_pos h]
        exact Or.inr (Or.inr rfl)
  constructor
  · rcases hval with hv | hv | hv <;>
      (unfold analyze_stock_with_talib analyzeE; rw [hv]; rfl)
  · intro hpos hcols
    have hv : validateE cfg (some df) = some RejectReason.insufficientData := by
      simp only [validateE]
      rw [if_neg (by omega), if_neg (by simp_all), if_pos h]
    unfold analyzeE
    rw [hv]

/-- Claim C6 witness: the 10-bar series `dfTenBars` with the default
minimum of 50 yields `None`, with the insufficient-data reason. -/
theorem insufficient_data_rejection_instance :
    analyze_stock_with_talib defaultConfig "SBIN.NS" (some dfTenBars) = none ∧
    analyzeE defaultConfig "SBIN.NS" (some dfTenBars) =
      Except.error RejectReason.insufficientData := by
  refine ⟨(insufficient_data_rejection defaultConfig "SBIN.NS" dfTenBars
    (by decide)).1, ?_⟩
  exact (insufficient_data_rejection defaultConfig "SBIN.NS" dfTenBars
    (by decide)).2 (by decide) (by decide)

/-- Claim C7: the analysis entry point is a total function returning either
a record or `None` (the source catches every exception and returns `None`;
the embedding has no exceptional control flow at all), and in a batch every
symbol that has data is processed and appears in the result with its own
analysis, whatever happens to the other symbols — one symbol's rejection
never removes another from the batch. -/
theorem no_raise_and_batch_isolation :
    (∀ (cfg : Config) (sym : String) (data : Option DataFrame),
      analyze_stock_with_talib cfg sym data = none ∨
      ∃ r, analyze_stock_with_talib cfg sym data = some r) ∧
    (∀ (cfg : Config) (batch : List (String × Option DataFrame))
        (sym : String) (df : DataFrame),
      (sym, some df) ∈ batch →
      (sym, analyze_stock_with_talib cfg sym (some df)) ∈
        analyze_multiple_stocks cfg batch) := by
  constructor
  · intro cfg sym data
    rcases h : analyze_stock_with_talib cfg sym data with _ | r
    · exact Or.inl rfl
    · exact Or.inr ⟨r, rfl⟩
  · intro cfg batch sym df hmem
    unfold analyze_multiple_stocks
    exact List.mem_filterMap.mpr ⟨(sym, some df), hmem, rfl⟩

/-- Claim C7 witness: in a concrete two-symbol batch whose first symbol is
rejected (10 bars), the second symbol is still processed and present. -/
theorem batch_isolation_instance :
    ("GOOD", analyze_stock_with_talib defaultConfig "GOOD" (some dfFlat)) ∈
      analyze_multiple_stocks defaultConfig
        [("BAD", some dfTenBars), ("GOOD", some dfFlat)] :=
  no_raise_and_batch_isolation.2 defaultConfig
    [("BAD", some dfTenBars), ("GOOD", some dfFlat)] "GOOD" dfFlat
    (by simp)

/-- The RSI classifier emits one of exactly three lists. -/
theorem rsi_signals_cases (cfg : Config) (v : Option ℚ) :
    calculate_rsi_signals cfg v = [] ∨
    (∃ q, calculate_rsi_signals cfg v = [Signal.RSIOversold q]) ∨
    (∃ q, calculate_rsi_signals cfg v = [Signal.RSIOverbought q]) := by
  cases v with
  | none => exact Or.inl rfl
  | some q =>
    simp only [calculate_rsi_signals]
    split_ifs
    · exact Or.inr (Or.inl ⟨q, rfl⟩)
    · exact Or.inr (Or.inr ⟨q, rfl⟩)
    · exact Or.inl rfl

/-- The MACD classifier emits one of exactly three lists. -/
theorem macd_signals_cases (macd signal histogram : List (Option ℚ)) :
    calculate_macd_signals macd signal histogram = [] ∨
    calculate_macd_signals macd signal histogram = [Signal.MACDBullishCrossover] ∨
    calculate_macd_signals macd signal histogram = [Signal.MACDBearishCrossover] := by
  unfold calculate_macd_signals
  split
  · exact Or.inl rfl
  · split
    · split_ifs
      · exact Or.inr (Or.inl rfl)
      · exact Or.inr (Or.inr rfl)
      · exact Or.inl rfl
    · exact Or.inl rfl

set_option maxHeartbeats 1000000 in
/-- Inversion for a successful analysis: the record's fields are the ones
the orchestrator assembled — in particular the company name comes from
`extract_company_name` and the signal list is the RSI signals (computed
from the record's stored latest RSI) followed by the MACD signals
(computed from the record's stored indicator arrays). -/
theorem analyzeE_ok_record (cfg : Config) (sym : String)
    (data : Option DataFrame) (r : AnalysisResult)
    (h : analyzeE cfg sym data = Except.ok r) :
    r.company_name = extract_company_name sym ∧
    r.signals = calculate_rsi_signals cfg r.rsi ++
      calculate_macd_signals r.ind_macd r.ind_macd_signal r.ind_macd_histogram := by
  unfold analyzeE at h
  split at h
  · simp at h
  · split at h
    · simp at h
    · split at h
      · simp at h
      · split at h
        · simp at h
        · simp at h
        · split at h
          · simp at h
          · rw [Except.ok.injEq] at h
            subst h
            exact ⟨rfl, rfl⟩

/-- A successful `analyze_stock_with_talib` is a successful `analyzeE`. -/
theorem analyze_some_iff (cfg : Config) (sym : String)
    (data : Option DataFrame) (r : AnalysisResult) :
    analyze_stock_with_talib cfg sym data = some r ↔
      analyzeE cfg sym data = Except.ok r := by
  unfold analyze_stock_with_talib
  cases he : analyzeE cfg sym data <;> simp [Except.toOption]

/-- Claim C8: each classifier emits at most one signal per evaluation, and
for every input (accepted or rejected) the resulting signal list never
holds both RSI signals, never holds both MACD crossovers, and has length
at most 2. -/
theorem signal_mutual_exclusivity :
    (∀ (cfg : Config) (v : Option ℚ), (calculate_rsi_signals cfg v).length ≤ 1) ∧
    (∀ macd signal histogram : List (Option ℚ),
      (calculate_macd_signals macd signal histogram).length ≤ 1) ∧
    (∀ (cfg : Config) (sym : String) (data : Option DataFrame),
      (signalsOf (analyze_stock_with_talib cfg sym data)).length ≤ 2 ∧
      ((signalsOf (analyze_stock_with_talib cfg sym data)).any isOversoldSig &&
        (signalsOf (analyze_stock_with_talib cfg sym data)).any isOverboughtSig)
          = false ∧
      ((signalsOf (analyze_stock_with_talib cfg sym data)).any isBullishSig &&
        (signalsOf (analyze_stock_with_talib cfg sym data)).any isBearishSig)
          = false) := by
  refine ⟨?_, ?_, ?_⟩
  · intro cfg v
    rcases rsi_signals_cases cfg v with e | ⟨q, e⟩ | ⟨q, e⟩ <;> simp [e]
  · intro macd signal histogram
    rcases macd_signals_cases macd signal histogram with e | e | e <;> simp [e]
  · intro cfg sym data
    rcases hr : analyze_stock_with_talib cfg sym data with _ | r
    · simp [signalsOf]
    · have hok := (analyze_some_iff cfg sym data r).mp hr
      have hsig := (analyzeE_ok_record cfg sym data r hok).2
      have e1 := rsi_signals_cases cfg r.rsi
      have e2 := macd_signals_cases r.ind_macd r.ind_macd_signal
        r.ind_macd_histogram
      rcases e1 with e | ⟨q, e⟩ | ⟨q, e⟩ <;> rcases e2 with f | f | f <;>
        simp [signalsOf, hsig, e, f, isOversoldSig, isOverboughtSig,
          isBullishSig, isBearishSig]

/-- Claim C9: the analysis core is deterministic — it is a pure function of
the symbol, the data and the configuration (the embedding takes the global
`config` singleton as an explicit argument; the source reads no clock and
uses no randomness in this path), so repeated invocation yields identical
records, and the batch result is exactly the independent per-symbol results
in order: an entry's result never depends on the other entries. -/
theorem analysis_deterministic :
    (∀ (cfg : Config) (sym : String) (data : Option DataFrame),
      analyze_stock_with_talib cfg sym data =
        analyze_stock_with_talib cfg sym data) ∧
    (∀ (cfg : Config) (pre post : List (String × Option DataFrame))
        (sym : String) (df : DataFrame),
      analyze_multiple_stocks cfg (pre ++ (sym, some df) :: post) =
        analyze_multiple_stocks cfg pre ++
          (sym, analyze_stock_with_talib cfg sym (some df)) ::
            analyze_multiple_stocks cfg post) := by
  refine ⟨fun _ _ _ => rfl, fun cfg pre post sym df => ?_⟩
  unfold analyze_multiple_stocks
  rw [List.filterMap_append, List.filterMap_cons]

/-- Claim C10 counterexample: Python's `symbol.replace('.NS', '')` removes
every occurrence of ".NS", not only a trailing suffix; on the symbol
"KOTAK.NS.NS" the code produces "KOTAK" while removing one trailing ".NS"
suffix would produce "KOTAK.NS", and a successful analysis under that
symbol indeed records "KOTAK". -/
theorem company_name_strips_all_occurrences :
    extract_company_name "KOTAK.NS.NS" = "KOTAK" ∧
    companyNameSpec "KOTAK.NS.NS" = "KOTAK.NS" ∧
    (("KOTAK" : String) == "KOTAK.NS") = false ∧
    (analyze_stock_with_talib defaultConfig "KOTAK.NS.NS" (some dfFlat)).map
      AnalysisResult.company_name = some "KOTAK" := by
  refine ⟨by with_unfolding_all rfl, by with_unfolding_all rfl, by decide,
    by with_unfolding_all rfl⟩

/-- Claim C10, amended: a successful record's company name is the symbol
with every occurrence of ".NS" removed when the symbol ends with ".NS"
(which equals stripping the suffix for the usual symbols containing ".NS"
only as suffix), the symbol unchanged otherwise; and the record's signal
list is the RSI signals followed by the MACD signals, RSI first. -/
theorem record_company_name_and_signal_order (cfg : Config) (sym : String)
    (data : Option DataFrame) (r : AnalysisResult)
    (h : analyzeE cfg sym data = Except.ok r) :
    r.company_name =
      (if sym.endsWith ".NS" then sym.replace ".NS" "" else sym) ∧
    r.signals = calculate_rsi_signals cfg r.rsi ++
      calculate_macd_signals r.ind_macd r.ind_macd_signal
        r.ind_macd_histogram :=
  analyzeE_ok_record cfg sym data r h

/-- Claim C10 witness: the record of the flat 50-bar series under symbol
"KOTAKBANK.NS" has company name "KOTAKBANK" and its signal list is the RSI
signals followed by the MACD signals. -/
theorem record_company_name_and_signal_order_instance :
    recordFlat.company_name =
      (if ("KOTAKBANK.NS" : String).endsWith ".NS"
        then ("KOTAKBANK.NS" : String).replace ".NS" "" else "KOTAKBANK.NS") ∧
    recordFlat.signals = calculate_rsi_signals defaultConfig recordFlat.rsi ++
      calculate_macd_signals recordFlat.ind_macd recordFlat.ind_macd_signal
        recordFlat.ind_macd_histogram :=
  record_company_name_and_signal_order defaultConfig "KOTAKBANK.NS"
    (some dfFlat) recordFlat (by with_unfolding_all rfl)

end TechAnalysis
